import Mathlib

/-!
# Verification of the CaptvtyAddon spatial-interaction engine

Shallow embedding of the Python sources under `src/addon/appModules/`
(`modules/helper_functions.py`, `modules/program.py`,
`modules/list_elements.py`, `captvty.py`) together with proofs about the
claims of the specification.

Conventions:
* screen coordinates are `Int`;
* a Python value that may be `None` becomes an `Option`;
* a Python function that may raise becomes an `Except String`;
* side-effecting primitives (mouse clicks, wheel events) are recorded in
  explicit event traces.
-/

namespace Captvty

/-- Decidable equality for `Except`, so that concrete runs of the
embedded functions can be checked by `decide`. -/
instance {ε α : Type} [DecidableEq ε] [DecidableEq α] : DecidableEq (Except ε α) :=
  fun x y =>
    match x, y with
    | Except.ok a, Except.ok b =>
      if h : a = b then isTrue (by rw [h]) else isFalse (by intro hh; cases hh; exact h rfl)
    | Except.error a, Except.error b =>
      if h : a = b then isTrue (by rw [h]) else isFalse (by intro hh; cases hh; exact h rfl)
    | Except.ok _, Except.error _ => isFalse (by intro hh; cases hh)
    | Except.error _, Except.ok _ => isFalse (by intro hh; cases hh)

/-- `locationHelper.RectLTWH`: a rectangle given by left, top, width, height. -/
structure RectLTWH where
  left : Int
  top : Int
  width : Int
  height : Int
deriving DecidableEq, Repr

/-- The side of the window an element trespasses on
(the strings "above", "below", "left", "right" of the Python code). -/
inductive Side where
  | above
  | below
  | left
  | right
deriving DecidableEq, Repr

/-- Offsets for the element's left, right, bottom and top edge, in this
order, exactly as `bounds_offset` is consumed in the Python source. -/
structure BoundsOffset where
  offLeft : Int
  offRight : Int
  offBottom : Int
  offTop : Int
deriving DecidableEq, Repr

/-- Embedding of `helper_functions.where_is_element_trespassing`.

The two location arguments stand for the live results of
`element._get_location()` and `window._get_location()` (`none` when the
Python call returns `None`).  The Python function logs and returns `None`
when a location is unavailable, returns `None` when the offset-adjusted
element rectangle is inside the window, returns one of the four side
strings in the source's branch order, and otherwise raises
`AssertionError("Bounds must be within two dimensions")` — modelled as
`Except.error`. -/
def where_is_element_trespassing (element_location window_location : Option RectLTWH)
    (bounds_offset : BoundsOffset) : Except String (Option Side) :=
  match element_location with
  | none => Except.ok none
  | some el =>
    match window_location with
    | none => Except.ok none
    | some wl =>
      let element_left := el.left + bounds_offset.offLeft
      let element_right := el.left + el.width + bounds_offset.offRight
      let element_bottom := el.top + el.height + bounds_offset.offBottom
      let element_top := el.top + bounds_offset.offTop
      let window_right := wl.left + wl.width
      let window_bottom := wl.top + wl.height
      if (wl.left ≤ element_left ∧ element_right ≤ window_right) ∧
          (wl.top ≤ element_top ∧ element_bottom ≤ window_bottom) then
        Except.ok none
      else if window_bottom < element_top then
        Except.ok (some Side.below)
      else if element_bottom < wl.top then
        Except.ok (some Side.above)
      else if window_right < element_left then
        Except.ok (some Side.right)
      else if element_right < wl.left then
        Except.ok (some Side.left)
      else
        Except.error "Bounds must be within two dimensions"

/-- The element roles that matter to `find_scrollable_container`
(`controlTypes.ROLE_SCROLLPANE`, `ROLE_SCROLLBAR`, `ROLE_PANE`, and the
roles used elsewhere in the app module). -/
inductive Role where
  | scrollPane
  | scrollBar
  | pane
  | button
  | checkbox
  | other
deriving DecidableEq, Repr

/-- A node of the element's ancestor chain, as observed by
`find_scrollable_container`: its own role and the roles of its children
in order. -/
structure AncestorNode where
  role : Role
  childRoles : List Role
deriving DecidableEq, Repr

/-- `container.role in [ROLE_SCROLLPANE, ROLE_SCROLLBAR]`. -/
def isScrollableRole (r : Role) : Bool :=
  r = Role.scrollPane || r = Role.scrollBar

/-- Identifies the container returned by `find_scrollable_container`:
either the `i`-th ancestor itself, or the `j`-th child of the `i`-th
ancestor (a pane with a scrollable child).  Index 0 is `element.parent`. -/
inductive FoundContainer where
  | ancestor (i : Nat)
  | paneChild (i j : Nat)
deriving DecidableEq, Repr

/-- The `for container_child in container.children:` loop of
`find_scrollable_container`: index of the first scroll-pane/scroll-bar
child, `j` being the index of the first entry of the remaining list. -/
def firstScrollableChildIdx : List Role → Nat → Option Nat
  | [], _ => none
  | r :: rs, j =>
    if isScrollableRole r then some j else firstScrollableChildIdx rs (j + 1)

/-- Embedding of the `while container:` walk of
`helper_functions.find_scrollable_container`, with `i` the index of the
current ancestor within the original chain. -/
def find_scrollable_container_from : List AncestorNode → Nat → Option FoundContainer
  | [], _ => none
  | node :: rest, i =>
    if isScrollableRole node.role then
      some (FoundContainer.ancestor i)
    else if node.role = Role.pane then
      match firstScrollableChildIdx node.childRoles 0 with
      | some j => some (FoundContainer.paneChild i j)
      | none => find_scrollable_container_from rest (i + 1)
    else
      find_scrollable_container_from rest (i + 1)

/-- Embedding of `helper_functions.find_scrollable_container`: walk the
ancestor chain (`element.parent`, its parent, ...) for the nearest
scroll-pane/scroll-bar ancestor, or a pane ancestor having a
scroll-pane/scroll-bar child; `none` if the chain is exhausted. -/
def find_scrollable_container (chain : List AncestorNode) : Option FoundContainer :=
  find_scrollable_container_from chain 0

/-- The environment a `scroll_to_element` run observes.  `elemReads n` is
the result of the `n`-th call to `element._get_location()` during the run
and `winReads n` the result of the `n`-th call to
`window._get_location()` (the window object itself is fetched once, its
location re-read by every `where_is_element_trespassing` call). -/
structure ScrollEnv where
  elemReads : Nat → Option RectLTWH
  winReads : Nat → Option RectLTWH

/-- The wheel deltas one loop iteration of `scroll_to_element` issues for
a given trespass-query result: one event of `+scroll_delta` on `above`,
one of `-scroll_delta` on `below`, nothing on `none`, `left` or
`right`. -/
def issuedDeltas (scroll_delta : Int) : Option Side → List Int
  | some Side.above => [scroll_delta]
  | some Side.below => [-scroll_delta]
  | _ => []

/-- Embedding of the `for _ in range(max_attempts):` loop of
`helper_functions.scroll_to_element`.

Arguments after the environment: remaining attempts (fuel), the number
`i` of iterations already executed (which fixes the read indices: the
trespass query of iteration `i` performs element read `2*i+1` and window
read `i`, the re-read after it is element read `2*i+2`; element read `0`
is the initial `el_location` before the loop), `el_location` (the prior
element reading) and `has_not_moved_counter`.

Returns the list of wheel deltas issued from this point on, paired with
the total number of iterations executed when the function returns;
an `AssertionError` escaping `where_is_element_trespassing` propagates. -/
def scrollLoop (env : ScrollEnv) (scroll_delta : Int) (bounds_offset : BoundsOffset) :
    Nat → Nat → Option RectLTWH → Nat → Except String (List Int × Nat)
  | 0, i, _, _ => Except.ok ([], i)
  | fuel + 1, i, el_location, has_not_moved_counter =>
    match where_is_element_trespassing (env.elemReads (2 * i + 1)) (env.winReads i)
        bounds_offset with
    | Except.error e => Except.error e
    | Except.ok trespassing_side =>
      if env.elemReads (2 * i + 2) = el_location then
        if has_not_moved_counter + 1 = 10 then
          Except.ok (issuedDeltas scroll_delta trespassing_side, i + 1)
        else
          (scrollLoop env scroll_delta bounds_offset fuel (i + 1) (env.elemReads (2 * i + 2))
              (has_not_moved_counter + 1)).map
            (fun r => (issuedDeltas scroll_delta trespassing_side ++ r.1, r.2))
      else
        (scrollLoop env scroll_delta bounds_offset fuel (i + 1) (env.elemReads (2 * i + 2))
            0).map
          (fun r => (issuedDeltas scroll_delta trespassing_side ++ r.1, r.2))

/-- Embedding of `helper_functions.scroll_to_element`: resolve the
scrollable container (the supplied one, `or` the ancestor-chain search);
without one, log and return having issued nothing; otherwise run the
attempt loop.  The result records the wheel deltas issued and the number
of loop iterations executed. -/
def scroll_to_element (env : ScrollEnv) (chain : List AncestorNode) (scroll_delta : Int)
    (max_attempts : Nat) (scrollable_container : Option FoundContainer)
    (bounds_offset : BoundsOffset) : Except String (List Int × Nat) :=
  match scrollable_container.orElse (fun _ => find_scrollable_container chain) with
  | none => Except.ok ([], 0)
  | some _ => scrollLoop env scroll_delta bounds_offset max_attempts 0 (env.elemReads 0) 0

/-- The trespass query performed by loop iteration `i` of
`scroll_to_element` (element read `2*i+1`, window read `i`). -/
def sideQueryAt (env : ScrollEnv) (bounds_offset : BoundsOffset) (i : Nat) :
    Except String (Option Side) :=
  where_is_element_trespassing (env.elemReads (2 * i + 1)) (env.winReads i) bounds_offset

/-- Modelled from the spec's words (claim C2): the wheel delta the spec says
iteration `i` must issue — `+scroll_delta` when the trespass query yields
`above`, `-scroll_delta` when it yields `below`, and nothing otherwise. -/
def spec_wheel_delta (env : ScrollEnv) (scroll_delta : Int) (bounds_offset : BoundsOffset)
    (i : Nat) : Option Int :=
  match sideQueryAt env bounds_offset i with
  | Except.ok (some Side.above) => some scroll_delta
  | Except.ok (some Side.below) => some (-scroll_delta)
  | _ => none

/-- The number of loop iterations a `scroll_to_element` run executed
(`none` when the run ended in an exception). -/
def itersOf : Except String (List Int × Nat) → Option Nat
  | Except.ok r => some r.2
  | Except.error _ => none

/-- The parsed fields of `program.Program`. -/
structure Program where
  name : String
  channel : String
  published_at : String
  duration : String
  summary : String
deriving DecidableEq, Repr

/-- Python's `s.split("; ")` on the character list of `s`, specialised to
the two-character separator used by `Program.__init__`: scan left to
right, cut at every non-overlapping occurrence of `';'` followed by
`' '`, keeping empty segments.  `acc` holds the reversed characters of
the segment being built. -/
def splitSemicolonSpace : List Char → List Char → List (List Char)
  | [], acc => [acc.reverse]
  | [c], acc => [(c :: acc).reverse]
  | c1 :: c2 :: cs, acc =>
    if c1 = ';' ∧ c2 = ' ' then
      acc.reverse :: splitSemicolonSpace cs []
    else
      splitSemicolonSpace (c2 :: cs) (c1 :: acc)

/-- Embedding of `Program.__init__`: split the input on the literal
separator `"; "`, take segment 0 as the name and strip fixed-length
label prefixes (8, 24, 7 and 8 characters) off segments 1–4 by
character-count slicing (Python `[8:]` etc. on code points).  Accessing
a missing segment raises `IndexError`, modelled as `Except.error`. -/
def Program.init (unparsed_program : String) : Except String Program :=
  let parsed_program : List (List Char) := splitSemicolonSpace unparsed_program.data []
  match parsed_program[0]?, parsed_program[1]?, parsed_program[2]?,
      parsed_program[3]?, parsed_program[4]? with
  | some p0, some p1, some p2, some p3, some p4 =>
    Except.ok ⟨String.mk p0, String.mk (p1.drop 8), String.mk (p2.drop 24),
      String.mk (p3.drop 7), String.mk (p4.drop 8)⟩
  | _, _, _, _, _ => Except.error "IndexError"

/-- Embedding of `get_program_info` inside
`AppModule._rattrapageSelectedChannelCallback._program_list`: the input
is `element.name` (`none` when the attribute is `None`, in which case
`Program(None)` raises `AttributeError`); a parse fault (`IndexError`)
is swallowed and the element treated as "not a program" (`none`);
otherwise the formatted info line is produced, the duration and summary
parts being dropped when the corresponding field is empty. -/
def get_program_info (name : Option String) : Option String :=
  match name with
  | none => none
  | some s =>
    match Program.init s with
    | Except.error _ => none
    | Except.ok program =>
      some (program.name ++
        (if program.duration ≠ "" then " | Durée: " ++ program.duration else "") ++
        (if program.summary ≠ "" then " | Sommaire : " ++ program.summary else ""))

/-- A mode button as observed by `getModeButtonList` / `getAppMode`:
its display name, role and `location.left` coordinate. -/
structure ModeButton where
  name : String
  role : Role
  left : Int
deriving DecidableEq, Repr

/-- The pane cached as `self.buttonListPane`; its children are panes
whose children are the candidate buttons. -/
structure ButtonListPane where
  children : List (List ModeButton)
deriving DecidableEq, Repr

/-- The foreground window as consulted by `getModeButtonList`:
`probePane` is the result of
`self.window.objectFromPoint(left + 10, top + 10)`. -/
structure CaptvtyWindow where
  probePane : Option ButtonListPane
deriving DecidableEq, Repr

/-- One step of a Python dict comprehension keyed by button name: a
duplicate key keeps its original position but takes the new value. -/
def dictInsert (m : List ModeButton) (b : ModeButton) : List ModeButton :=
  if m.any (fun x => x.name = b.name) then
    m.map (fun x => if x.name = b.name then b else x)
  else
    m ++ [b]

/-- The dict comprehension of `AppModule.getModeButtonList`: every
button-role child of every child of the button-list pane, keyed by
name (values in insertion order). -/
def modeButtonsOf (pane : ButtonListPane) : List ModeButton :=
  (pane.children.flatten.filter (fun b => b.role = Role.button)).foldl dictInsert []

/-- Embedding of `AppModule.getModeButtonList`.  The first argument is
the cached `self.buttonListPane` attribute (`none` when the attribute is
not yet set, i.e. `not hasattr(self, "buttonListPane")`); the second is
`self.window`.  Returns the mode-button dict together with the value
the cache attribute holds afterwards; raises `WindowNotAvailableError`
or `ButtonListPaneNotAvailableError` as the source does. -/
def getModeButtonList (buttonListPane : Option ButtonListPane)
    (window : Option CaptvtyWindow) :
    Except String (List ModeButton × Option ButtonListPane) :=
  match buttonListPane with
  | some pane => Except.ok (modeButtonsOf pane, some pane)
  | none =>
    match window with
    | none => Except.error "WindowNotAvailableError"
    | some w =>
      match w.probePane with
      | none => Except.error "ButtonListPaneNotAvailableError"
      | some pane => Except.ok (modeButtonsOf pane, some pane)

/-- `helper_functions.AppModes`. -/
inductive AppModes where
  | DIRECT
  | RATTRAPAGE
  | TELECHARGEMENT
  | OTHER
deriving DecidableEq, Repr

/-- One step of the `for button in buttons.values():` selection loop of
`AppModule.getAppMode`: keep the current candidate unless it is absent
or the next button's `location.left` is strictly larger. -/
def rightMostStep (right_most : Option ModeButton) (button : ModeButton) :
    Option ModeButton :=
  match right_most with
  | none => some button
  | some r => if r.left < button.left then some button else some r

/-- The `for button in buttons.values():` selection loop of
`AppModule.getAppMode`. -/
def rightMostButton (buttons : List ModeButton) : Option ModeButton :=
  buttons.foldl rightMostStep none

/-- The exact-string name→mode mapping at the end of
`AppModule.getAppMode`. -/
def modeOfName (name : String) : AppModes :=
  if name = "DIRECT" then AppModes.DIRECT
  else if name = "RATTRAPAGE" then AppModes.RATTRAPAGE
  else if name = "TÉLÉCHARGEMENT\nMANUEL" then AppModes.TELECHARGEMENT
  else AppModes.OTHER

/-- Embedding of `AppModule.getAppMode`, taking the values of the
mode-button dict: empty set → `OTHER`; otherwise map the right-most
button's name (`ButtonListPaneNotAvailableError` is raised only in the
unreachable case of a nonempty set with no right-most button). -/
def getAppMode (buttons : List ModeButton) : Except String AppModes :=
  if buttons.isEmpty then Except.ok AppModes.OTHER
  else
    match rightMostButton buttons with
    | none => Except.error "ButtonListPaneNotAvailableError"
    | some right_most => Except.ok (modeOfName right_most.name)

/-- A mouse click recorded during
`AppModule._rattrapageSelectedChannelCallback`: a (scroll-and-)click on
a channel element, or the final click on the application window. -/
inductive MouseClick (α : Type) where
  | channel (c : α)
  | window
deriving DecidableEq, Repr

/-- The observable outcome of
`AppModule._rattrapageSelectedChannelCallback` up to the point where the
program-list dialog is scheduled: the new engaged-channel state, the
mouse clicks issued in order, and the error raised, if any. -/
structure RattrapageOutcome (α : Type) where
  current_channel_rattrapage : Option α
  clicks : List (MouseClick α)
  error : Option String
deriving DecidableEq, Repr

/-- Embedding of `AppModule._rattrapageSelectedChannelCallback` (click
behaviour): if a channel is currently engaged, scroll-and-click it
(disengage); record the selected element as the engaged channel;
scroll-and-click the selected element (engage); then raise
`WindowNotAvailableError` if the window is gone, else click the window.
`scroll_to_element` issues wheel events only, so each
`scroll_and_click_on_element` contributes exactly one click. -/
def rattrapageSelectedChannelCallback {α : Type}
    (current_channel_rattrapage : Option α) (selectedElement : α)
    (window_available : Bool) : RattrapageOutcome α :=
  let disengage : List (MouseClick α) :=
    match current_channel_rattrapage with
    | some prev => [MouseClick.channel prev]
    | none => []
  let clicks := disengage ++ [MouseClick.channel selectedElement]
  if window_available then
    ⟨some selectedElement, clicks ++ [MouseClick.window], none⟩
  else
    ⟨some selectedElement, clicks, some "WindowNotAvailableError"⟩

/-- An entry of `ElementsListDialog.elements`: a real element, or the
placeholder string `"Liste vide"` installed when the dialog is created
with an empty element list. -/
inductive DialogEntry (α : Type) where
  | item (a : α)
  | listeVide
deriving DecidableEq, Repr

/-- The `ElementsListDialog` state relevant to selection:
`empty_list`, `elements`, `element_indices` (initially
`range(len(element_names))`), whether a callback was supplied,
`selectedElement` and `is_closed`. -/
structure ElementsListDialog (α : Type) where
  empty_list : Bool
  elements : List (DialogEntry α)
  element_indices : List Nat
  has_callback : Bool
  selectedElement : Option (DialogEntry α)
  is_closed : Bool
deriving DecidableEq, Repr

/-- Embedding of `ElementsListDialog.__init__`:
`empty_list = not elements`, `elements = elements or ["Liste vide"]`,
`element_indices = list(range(len(element_names)))`,
`selectedElement = None`. -/
def ElementsListDialog.init {α : Type} (elements : List α) (has_callback : Bool) :
    ElementsListDialog α :=
  let elems :=
    if elements.isEmpty then [DialogEntry.listeVide (α := α)]
    else elements.map DialogEntry.item
  { empty_list := elements.isEmpty
    elements := elems
    element_indices := List.range elems.length
    has_callback := has_callback
    selectedElement := none
    is_closed := false }

/-- Embedding of `ElementsListDialog.onOk`.  `selectedIndex` models
`self.elementsListBox.GetFirstSelected()` (`none` for `-1`).  The dialog
is closed first; with no callback or an `empty_list`, the handler
returns at once.  The second component of the result is `some arg`
exactly when the callback is invoked, with `arg` the value passed to it
(`none` when `selectedElement` is still `None`).  Out-of-range indexing
raises `IndexError`. -/
def ElementsListDialog.onOk {α : Type} (d : ElementsListDialog α)
    (selectedIndex : Option Nat) :
    Except String (ElementsListDialog α × Option (Option (DialogEntry α))) :=
  let d := { d with is_closed := true }
  if !d.has_callback || d.empty_list then
    Except.ok (d, none)
  else
    match selectedIndex with
    | none => Except.ok (d, some d.selectedElement)
    | some idx =>
      match d.element_indices.get? idx with
      | none => Except.error "IndexError"
      | some j =>
        match d.elements.get? j with
        | none => Except.error "IndexError"
        | some e =>
          let d := { d with selectedElement := some e }
          Except.ok (d, some d.selectedElement)

/-- Fixture: an environment whose element rectangle lies fully inside the
window rectangle on every read. -/
def insideEnv : ScrollEnv :=
  ⟨fun _ => some ⟨10, 10, 5, 5⟩, fun _ => some ⟨0, 0, 100, 100⟩⟩

/-- Fixture: an environment whose element rectangle lies fully below the
window rectangle on every read (its top, 200, exceeds the window bottom,
100) and never moves. -/
def belowEnv : ScrollEnv :=
  ⟨fun _ => some ⟨10, 200, 5, 5⟩, fun _ => some ⟨0, 0, 100, 100⟩⟩

/-- Fixture: a cached button-list pane whose only child element is not a
button, so the mode-button dict built from it is empty. -/
def stalePane : ButtonListPane :=
  ⟨[[⟨"X", Role.pane, 0⟩]]⟩

/-- Fixture: a button-list pane holding the two mode buttons of the
specification's synthetic example. -/
def freshPane : ButtonListPane :=
  ⟨[[⟨"DIRECT", Role.button, 10⟩, ⟨"RATTRAPAGE", Role.button, 200⟩]]⟩

/-- Fixture: a window whose point probe yields `freshPane`. -/
def freshWindow : CaptvtyWindow :=
  ⟨some freshPane⟩

/-- Fixture: the mode-button set of the specification's synthetic example,
`"DIRECT"` at left 10 and `"RATTRAPAGE"` at left 200. -/
def exampleButtons : List ModeButton :=
  [⟨"DIRECT", Role.button, 10⟩, ⟨"RATTRAPAGE", Role.button, 200⟩]

/-- Claim C1: the claim states that, with both rectangles available,
`where_is_element_trespassing` returns `none` exactly on full
containment and otherwise one of the four sides.  At this input — an
element straddling the window's left edge (element spans x 0..10, window
starts at x 5, vertically inside) — the code instead raises the
`AssertionError` its author marked as unreachable, so the claim fails on
a reachable input and the assertion contradicts the code's intent. -/
theorem claim_C1_partial_overlap_hits_assertion :
    where_is_element_trespassing (some ⟨0, 10, 10, 5⟩) (some ⟨5, 0, 100, 100⟩)
      ⟨0, 0, 0, 0⟩ = Except.error "Bounds must be within two dimensions" := by
  decide

/-- Claim C4, counterexample: re-selecting the already-engaged channel
(here channel `5`) does not issue zero clicks as the claim states — the
code clicks the channel twice (toggle off, then toggle on) and then
clicks the window. -/
theorem claim_C4_counterexample :
    rattrapageSelectedChannelCallback (some (5 : Nat)) 5 true =
      ⟨some 5, [MouseClick.channel 5, MouseClick.channel 5, MouseClick.window], none⟩ ∧
    (rattrapageSelectedChannelCallback (some (5 : Nat)) 5 true).clicks ≠ [] := by
  decide

/-- Claim C4 (amended): while channel `a` is engaged, selecting any
channel `b` — including `b = a` — issues exactly one disengage click on
`a`, then exactly one engage click on `b`, then one click on the window;
the engaged-channel state afterwards holds exactly `b` (so at most one
channel is engaged at any time).  Re-selecting the engaged channel is
therefore a double toggle, not a no-op. -/
theorem claim_C4_reselect_double_toggle (α : Type) (a b : α) :
    rattrapageSelectedChannelCallback (some a) b true =
      ⟨some b, [MouseClick.channel a, MouseClick.channel b, MouseClick.window], none⟩ :=
  rfl

/-- Claim C7, counterexample: with the element's rectangle unavailable
(element destroyed) the operation does not signal a fault — it returns
`None`, exactly the value it returns for an element fully inside the
window. -/
theorem claim_C7_counterexample :
    where_is_element_trespassing none (some ⟨0, 0, 100, 100⟩) ⟨0, 0, 0, 0⟩ =
      Except.ok none ∧
    where_is_element_trespassing (some ⟨10, 10, 5, 5⟩) (some ⟨0, 0, 100, 100⟩)
      ⟨0, 0, 0, 0⟩ = Except.ok none := by
  decide

/-- Claim C7 (amended): whenever either live rectangle is unavailable,
`where_is_element_trespassing` logs an error and returns `None` — the
same value as the fully-contained case — rather than raising a fault the
caller could observe. -/
theorem claim_C7_unavailable_returns_none (e w : Option RectLTWH) (off : BoundsOffset)
    (h : e = none ∨ w = none) :
    where_is_element_trespassing e w off = Except.ok none := by
  rcases h with h | h
  · subst h; rfl
  · subst h; cases e <;> rfl

/-- Claim C7 witness: the amended theorem applied to a destroyed element
next to a live window. -/
theorem claim_C7_unavailable_returns_none_witness :
    where_is_element_trespassing none (some ⟨0, 0, 50, 50⟩) ⟨1, 2, 3, 4⟩ =
      Except.ok none :=
  claim_C7_unavailable_returns_none none (some ⟨0, 0, 50, 50⟩) ⟨1, 2, 3, 4⟩ (Or.inl rfl)

/-- Claim C8, counterexample: with a stale cached pane (`stalePane`,
which yields no buttons) the discovery call returns an empty button set
and keeps the stale cache — it does not drop the hint and rescan, even
though a rescan through the window probe (`freshPane`) would have found
buttons. -/
theorem claim_C8_counterexample :
    getModeButtonList (some stalePane) (some freshWindow) =
      Except.ok ([], some stalePane) ∧
    modeButtonsOf freshPane ≠ [] := by
  decide

/-- Claim C8 (amended): the discovery operation caches the point-probed
pane, not a scan index; a call that finds the cache set uses it
unconditionally (whatever it yields) and retains it, and only a call
with no cache consults the window probe, caching whatever pane the probe
returns. -/
theorem claim_C8_cache_never_dropped (pane : ButtonListPane) (w : CaptvtyWindow)
    (window : Option CaptvtyWindow) :
    getModeButtonList (some pane) window = Except.ok (modeButtonsOf pane, some pane) ∧
    ∀ p, w.probePane = some p →
      getModeButtonList none (some w) = Except.ok (modeButtonsOf p, some p) := by
  refine ⟨rfl, ?_⟩
  intro p hp
  simp [getModeButtonList, hp]

/-- Claim C8 witness: the amended theorem applied to the stale cache and
to a window probing the fresh pane. -/
theorem claim_C8_cache_never_dropped_witness :
    getModeButtonList (some stalePane) (some freshWindow) =
      Except.ok (modeButtonsOf stalePane, some stalePane) ∧
    getModeButtonList none (some freshWindow) =
      Except.ok (modeButtonsOf freshPane, some freshPane) :=
  ⟨(claim_C8_cache_never_dropped stalePane freshWindow (some freshWindow)).1,
    (claim_C8_cache_never_dropped stalePane freshWindow (some freshWindow)).2
      freshPane rfl⟩

/-- Claim C10: a dialog constructed with an empty element list (so that
the `"Liste vide"` placeholder is installed and `empty_list` is set) and
not appended to since, when confirmed with OK, closes without ever
invoking the selection callback — in particular the placeholder entry is
never passed to the callback — whatever the list selection state is. -/
theorem claim_C10_empty_list_never_invokes_callback (α : Type) (has_callback : Bool)
    (selectedIndex : Option Nat) :
    (ElementsListDialog.init ([] : List α) has_callback).onOk selectedIndex =
      Except.ok
        ({ ElementsListDialog.init ([] : List α) has_callback with is_closed := true },
          none) := by
  cases has_callback <;> rfl

/-- Helper: what the selection fold of `getAppMode` returns is a member
of the scanned list (or was already the accumulator) and dominates both
the list and the accumulator in `left`. -/
theorem rightMost_fold_spec (l : List ModeButton) :
    ∀ (acc : Option ModeButton) (r : ModeButton), l.foldl rightMostStep acc = some r →
      (acc = some r ∨ r ∈ l) ∧ (∀ b ∈ l, b.left ≤ r.left) ∧
        (∀ a, acc = some a → a.left ≤ r.left) := by
  induction l with
  | nil =>
    intro acc r h
    simp only [List.foldl_nil] at h
    refine ⟨Or.inl h, by simp, ?_⟩
    intro a ha
    rw [ha] at h
    cases h
    exact le_refl _
  | cons b t ih =>
    intro acc r h
    rw [List.foldl_cons] at h
    obtain ⟨hmem, hdom, hacc⟩ := ih (rightMostStep acc b) r h
    have hb : b.left ≤ r.left := by
      cases acc with
      | none => exact hacc b rfl
      | some a =>
        by_cases hab : a.left < b.left
        · exact hacc b (by simp [rightMostStep, hab])
        · have ha := hacc a (by simp [rightMostStep, hab])
          omega
    refine ⟨?_, ?_, ?_⟩
    · rcases hmem with hm | hm
      · cases acc with
        | none =>
          simp only [rightMostStep] at hm
          cases hm
          exact Or.inr (List.mem_cons_self _ _)
        | some a =>
          by_cases hab : a.left < b.left
          · simp only [rightMostStep, if_pos hab] at hm
            cases hm
            exact Or.inr (List.mem_cons_self _ _)
          · simp only [rightMostStep, if_neg hab] at hm
            exact Or.inl hm
      · exact Or.inr (List.mem_cons_of_mem _ hm)
    · intro x hx
      rcases List.mem_cons.mp hx with hx | hx
      · rw [hx]; exact hb
      · exact hdom x hx
    · intro a ha
      cases acc with
      | none => cases ha
      | some a0 =>
        cases ha
        by_cases hab : a.left < b.left
        · omega
        · exact hacc a (by simp [rightMostStep, hab])

/-- Claim C5: on the empty mode-button set `getAppMode` yields `OTHER`;
otherwise the selected button (`rightMostButton`) belongs to the set,
every button's left edge is at most its left edge, and the result is the
exact-string mapping of that button's display name (`modeOfName`, which
sends unrecognized names to `OTHER`). -/
theorem claim_C5_getAppMode_right_most (buttons : List ModeButton) :
    (buttons = [] → getAppMode buttons = Except.ok AppModes.OTHER) ∧
    ∀ r, rightMostButton buttons = some r →
      r ∈ buttons ∧ (∀ b ∈ buttons, b.left ≤ r.left) ∧
        getAppMode buttons = Except.ok (modeOfName r.name) := by
  constructor
  · intro h
    rw [h]
    rfl
  · intro r hr
    obtain ⟨hmem, hdom, _⟩ := rightMost_fold_spec buttons none r hr
    have hm : r ∈ buttons := by
      rcases hmem with hm | hm
      · cases hm
      · exact hm
    have hne : buttons.isEmpty = false := by
      cases buttons with
      | nil => cases hm
      | cons x xs => rfl
    refine ⟨hm, hdom, ?_⟩
    simp [getAppMode, hne, rightMostButton] at hr ⊢
    rw [hr]

/-- Claim C5 witness: on the specification's synthetic set, `"DIRECT"`
at left 10 and `"RATTRAPAGE"` at left 200, the right-most button wins
and the mode is `RATTRAPAGE`. -/
theorem claim_C5_getAppMode_right_most_witness :
    getAppMode exampleButtons = Except.ok AppModes.RATTRAPAGE := by
  have h := (claim_C5_getAppMode_right_most exampleButtons).2
    ⟨"RATTRAPAGE", Role.button, 200⟩ (by decide)
  exact Eq.trans h.2.2 (by decide)

/-- Helper: with fewer than five `"; "`-separated segments,
`Program.__init__` raises `IndexError`. -/
theorem Program_init_short (s : String)
    (h : (splitSemicolonSpace s.data []).length < 5) :
    Program.init s = Except.error "IndexError" := by
  have h4 : (splitSemicolonSpace s.data [])[4]? = none :=
    List.getElem?_eq_none (by omega)
  unfold Program.init
  cases e0 : (splitSemicolonSpace s.data [])[0]? <;>
    cases e1 : (splitSemicolonSpace s.data [])[1]? <;>
      cases e2 : (splitSemicolonSpace s.data [])[2]? <;>
        cases e3 : (splitSemicolonSpace s.data [])[3]? <;>
          simp [e0, e1, e2, e3, h4]

/-- Claim C6: an input with fewer than five `"; "`-delimited segments
makes the parser raise (`IndexError`), and the caller
(`get_program_info`) swallows the fault, treating the element as "not a
program" (`none`) instead of crashing; the well-formed example input
parses by fixed-prefix-length slicing into the expected five fields. -/
theorem claim_C6_program_parse :
    (∀ s : String, (splitSemicolonSpace s.data []).length < 5 →
        Program.init s = Except.error "IndexError" ∧ get_program_info (some s) = none) ∧
    Program.init
        "Journal; Chaîne: TF1; Diffusée ou publiée le: 2024-01-01; Durée: 00:20:00; Résumé: Actualités" =
      Except.ok ⟨"Journal", "TF1", "2024-01-01", "00:20:00", "Actualités"⟩ := by
  constructor
  · intro s h
    have hi := Program_init_short s h
    exact ⟨hi, by simp [get_program_info, hi]⟩
  · decide

/-- Claim C6 witness: the first part of the theorem applied to the
two-segment input `"abc; def"`. -/
theorem claim_C6_program_parse_witness :
    Program.init "abc; def" = Except.error "IndexError" ∧
    get_program_info (some "abc; def") = none :=
  claim_C6_program_parse.1 "abc; def" (by decide)

/-- Helper: if no child role is scrollable, the child scan of
`find_scrollable_container` finds nothing. -/
theorem firstScrollableChildIdx_none :
    ∀ (l : List Role) (j : Nat), (∀ r ∈ l, isScrollableRole r = false) →
      firstScrollableChildIdx l j = none := by
  intro l
  induction l with
  | nil => intro j _; rfl
  | cons r rs ih =>
    intro j h
    have hr := h r (List.mem_cons_self _ _)
    simp only [firstScrollableChildIdx, hr]
    exact ih (j + 1) (fun x hx => h x (List.mem_cons_of_mem _ hx))

/-- Helper: an ancestor chain with no scroll-pane/scroll-bar ancestor and
no pane ancestor having a scrollable child yields no container. -/
theorem find_scrollable_container_from_none :
    ∀ (chain : List AncestorNode) (i : Nat),
      (∀ node ∈ chain, isScrollableRole node.role = false ∧
          (node.role = Role.pane → ∀ r ∈ node.childRoles, isScrollableRole r = false)) →
      find_scrollable_container_from chain i = none := by
  intro chain
  induction chain with
  | nil => intro i _; rfl
  | cons node rest ih =>
    intro i h
    obtain ⟨h1, h2⟩ := h node (List.mem_cons_self _ _)
    have hrest := fun x hx => h x (List.mem_cons_of_mem _ hx)
    simp only [find_scrollable_container_from, h1]
    by_cases hp : node.role = Role.pane
    · have hc := firstScrollableChildIdx_none node.childRoles 0 (h2 hp)
      simp [hp, hc, ih (i + 1) hrest]
    · simp [hp, ih (i + 1) hrest]

/-- Claim C9: when no scrollable container is supplied and the ancestor
search finds none (no scroll-pane/scroll-bar ancestor and no pane
ancestor with a scroll-pane/scroll-bar child), `scroll_to_element` is a
no-op best-effort exit: it returns normally (no exception) having issued
no wheel event and executed no loop iteration. -/
theorem claim_C9_no_container_noop (env : ScrollEnv) (chain : List AncestorNode)
    (scroll_delta : Int) (max_attempts : Nat) (bounds_offset : BoundsOffset)
    (h : ∀ node ∈ chain, isScrollableRole node.role = false ∧
        (node.role = Role.pane → ∀ r ∈ node.childRoles, isScrollableRole r = false)) :
    scroll_to_element env chain scroll_delta max_attempts none bounds_offset =
      Except.ok ([], 0) := by
  have hf : find_scrollable_container chain = none :=
    find_scrollable_container_from_none chain 0 h
  simp [scroll_to_element, Option.orElse, hf]

/-- Claim C9 witness: the theorem applied to a chain holding a pane with
only a button child and a plain ancestor. -/
theorem claim_C9_no_container_noop_witness :
    scroll_to_element insideEnv [⟨Role.pane, [Role.button]⟩, ⟨Role.other, []⟩]
      120 5 none ⟨0, 0, 0, 0⟩ = Except.ok ([], 0) :=
  claim_C9_no_container_noop insideEnv [⟨Role.pane, [Role.button]⟩, ⟨Role.other, []⟩]
    120 5 ⟨0, 0, 0, 0⟩ (by decide)

/-- Helper: for a trespass query answered `ok side` at iteration `i`,
the wheel delta the spec assigns to that iteration matches the delta
list the code issues. -/
theorem filterMap_single_spec (env : ScrollEnv) (d : Int) (off : BoundsOffset) (i : Nat)
    (side : Option Side)
    (hq : where_is_element_trespassing (env.elemReads (2 * i + 1)) (env.winReads i) off =
      Except.ok side) :
    List.filterMap (spec_wheel_delta env d off) [i] = issuedDeltas d side := by
  rcases side with _ | s
  · have key : spec_wheel_delta env d off i = none := by
      unfold spec_wheel_delta sideQueryAt
      rw [hq]
    simp [List.filterMap_cons, key, issuedDeltas]
  · cases s with
    | above =>
      have key : spec_wheel_delta env d off i = some d := by
        unfold spec_wheel_delta sideQueryAt
        rw [hq]
      simp [List.filterMap_cons, key, issuedDeltas]
    | below =>
      have key : spec_wheel_delta env d off i = some (-d) := by
        unfold spec_wheel_delta sideQueryAt
        rw [hq]
      simp [List.filterMap_cons, key, issuedDeltas]
    | left =>
      have key : spec_wheel_delta env d off i = none := by
        unfold spec_wheel_delta sideQueryAt
        rw [hq]
      simp [List.filterMap_cons, key, issuedDeltas]
    | right =>
      have key : spec_wheel_delta env d off i = none := by
        unfold spec_wheel_delta sideQueryAt
        rw [hq]
      simp [List.filterMap_cons, key, issuedDeltas]

/-- Helper: complete characterisation of a normally-returning scroll
loop: the iteration count lies between `i` and `i + fuel`, the loop ends
either by budget exhaustion or with the no-movement counter reaching 10,
and the issued wheel deltas are exactly the per-iteration deltas
dictated by the trespass queries. -/
theorem scrollLoop_spec (env : ScrollEnv) (d : Int) (off : BoundsOffset) :
    ∀ (fuel i : Nat) (p : Option RectLTWH) (c : Nat) (ds : List Int) (n : Nat),
      scrollLoop env d off fuel i p c = Except.ok (ds, n) →
      i ≤ n ∧ n ≤ i + fuel ∧ (n = i + fuel ∨ 10 ≤ c + (n - i)) ∧
        ds = (List.range' i (n - i)).filterMap (spec_wheel_delta env d off) := by
  intro fuel
  induction fuel with
  | zero =>
    intro i p c ds n h
    simp only [scrollLoop, Except.ok.injEq, Prod.mk.injEq] at h
    obtain ⟨hds, hn⟩ := h
    subst hn
    refine ⟨le_refl _, by omega, Or.inl (by omega), ?_⟩
    rw [← hds]
    simp
  | succ fuel ih =>
    intro i p c ds n h
    simp only [scrollLoop] at h
    split at h
    · exact absurd h (by simp)
    · rename_i side hq
      split at h
      · rename_i hmv
        split at h
        · rename_i hc
          simp only [Except.ok.injEq, Prod.mk.injEq] at h
          obtain ⟨hds, hn⟩ := h
          refine ⟨by omega, by omega, Or.inr (by omega), ?_⟩
          have h1 : n - i = 1 := by omega
          rw [← hds, h1, List.range'_one]
          exact (filterMap_single_spec env d off i side hq).symm
        · rename_i hc
          cases hrec : scrollLoop env d off fuel (i + 1) (env.elemReads (2 * i + 2))
              (c + 1) with
          | error e => rw [hrec] at h; simp [Except.map] at h
          | ok r =>
            obtain ⟨ds', n'⟩ := r
            rw [hrec] at h
            simp only [Except.map, Except.ok.injEq, Prod.mk.injEq] at h
            obtain ⟨hds, hn⟩ := h
            obtain ⟨ih1, ih2, ih3, ih4⟩ := ih (i + 1) (env.elemReads (2 * i + 2))
              (c + 1) ds' n' hrec
            subst hn
            refine ⟨by omega, by omega, by omega, ?_⟩
            have h1 : n' - i = (n' - (i + 1)) + 1 := by omega
            rw [← hds, h1, List.range'_succ, ← List.singleton_append,
              List.filterMap_append, filterMap_single_spec env d off i side hq, ih4]
      · rename_i hmv
        cases hrec : scrollLoop env d off fuel (i + 1) (env.elemReads (2 * i + 2)) 0 with
        | error e => rw [hrec] at h; simp [Except.map] at h
        | ok r =>
          obtain ⟨ds', n'⟩ := r
          rw [hrec] at h
          simp only [Except.map, Except.ok.injEq, Prod.mk.injEq] at h
          obtain ⟨hds, hn⟩ := h
          obtain ⟨ih1, ih2, ih3, ih4⟩ := ih (i + 1) (env.elemReads (2 * i + 2))
            0 ds' n' hrec
          subst hn
          refine ⟨by omega, by omega, by omega, ?_⟩
          have h1 : n' - i = (n' - (i + 1)) + 1 := by omega
          rw [← hds, h1, List.range'_succ, ← List.singleton_append,
            List.filterMap_append, filterMap_single_spec env d off i side hq, ih4]

/-- Claim C2 (amended): in a normally-returning `scroll_to_element` run
with a supplied container, every iteration whose trespass query yields
`above` issues exactly one `+scroll_delta` wheel event, every `below`
iteration exactly one `-scroll_delta` event, and `none`/`left`/`right`
iterations issue nothing (`spec_wheel_delta`); and the loop does not
stop when a query yields `none` — it runs until the attempt budget is
exhausted (`n = max_attempts`) or the stuck counter fires (which takes
at least 10 iterations). -/
theorem claim_C2_per_iteration_deltas (env : ScrollEnv) (chain : List AncestorNode)
    (scroll_delta : Int) (max_attempts : Nat) (cont : FoundContainer)
    (bounds_offset : BoundsOffset) (ds : List Int) (n : Nat)
    (h : scroll_to_element env chain scroll_delta max_attempts (some cont) bounds_offset =
      Except.ok (ds, n)) :
    ds = (List.range n).filterMap (spec_wheel_delta env scroll_delta bounds_offset) ∧
      (n = max_attempts ∨ 10 ≤ n) := by
  have h' : scrollLoop env scroll_delta bounds_offset max_attempts 0 (env.elemReads 0) 0 =
      Except.ok (ds, n) := by
    simpa [scroll_to_element, Option.orElse] using h
  obtain ⟨h1, h2, h3, h4⟩ :=
    scrollLoop_spec env scroll_delta bounds_offset max_attempts 0 (env.elemReads 0) 0 ds n h'
  constructor
  · rw [h4, List.range_eq_range']
    simp
  · omega

/-- Claim C2 witness: the amended theorem applied to the never-moving
fully-below environment, whose run issues ten `-120` deltas and ends by
stuck detection after 10 of the 15 allowed iterations. -/
theorem claim_C2_per_iteration_deltas_witness :
    List.replicate 10 (-120 : Int) =
      (List.range 10).filterMap (spec_wheel_delta belowEnv 120 ⟨0, 0, 0, 0⟩) ∧
      (10 = 15 ∨ 10 ≤ 10) :=
  claim_C2_per_iteration_deltas belowEnv [] 120 15 (FoundContainer.ancestor 0)
    ⟨0, 0, 0, 0⟩ (List.replicate 10 (-120)) 10 (by decide)

/-- Claim C2 counterexample: the claim states the loop stops (success)
as soon as the trespass query yields `none`.  In the fully-inside
environment the very first query yields `none`, yet the run with a
3-attempt budget executes all 3 iterations (issuing nothing), not 1. -/
theorem claim_C2_counterexample :
    sideQueryAt insideEnv ⟨0, 0, 0, 0⟩ 0 = Except.ok none ∧
    scroll_to_element insideEnv [] 120 3 (some (FoundContainer.ancestor 0)) ⟨0, 0, 0, 0⟩ =
      Except.ok ([], 3) ∧
    itersOf (scroll_to_element insideEnv [] 120 3 (some (FoundContainer.ancestor 0))
      ⟨0, 0, 0, 0⟩) ≠ some 1 := by
  refine ⟨by decide, by decide, by decide⟩

/-- Helper: with an element whose live location never changes and whose
trespass query keeps succeeding, the scroll loop returns by stuck
detection exactly when the no-movement counter reaches 10. -/
theorem scrollLoop_stuck_aux (env : ScrollEnv) (d : Int) (off : BoundsOffset)
    (r : Option Side)
    (hE : ∀ m, env.elemReads m = env.elemReads 0)
    (hW : ∀ m, env.winReads m = env.winReads 0)
    (hQ : where_is_element_trespassing (env.elemReads 0) (env.winReads 0) off =
      Except.ok r) :
    ∀ (k fuel i c : Nat), k + 1 ≤ fuel → c + (k + 1) = 10 →
      ∃ ds, scrollLoop env d off fuel i (env.elemReads 0) c = Except.ok (ds, i + (k + 1)) := by
  intro k
  induction k with
  | zero =>
    intro fuel i c hf hc
    cases fuel with
    | zero => omega
    | succ f =>
      have hc' : c + 1 = 10 := by omega
      refine ⟨issuedDeltas d r, ?_⟩
      simp only [scrollLoop, hE (2 * i + 1), hE (2 * i + 2), hW i, hQ]
      rw [if_pos trivial, if_pos hc']
  | succ k ih =>
    intro fuel i c hf hc
    cases fuel with
    | zero => omega
    | succ f =>
      obtain ⟨ds', hds'⟩ := ih f (i + 1) (c + 1) (by omega) (by omega)
      have hc10 : ¬ c + 1 = 10 := by omega
      refine ⟨issuedDeltas d r ++ ds', ?_⟩
      simp only [scrollLoop, hE (2 * i + 1), hE (2 * i + 2), hW i, hQ]
      rw [if_pos trivial, if_neg hc10, hds']
      simp only [Except.map]
      rw [show i + 1 + (k + 1) = i + (k + 1 + 1) from by omega]

/-- Claim C3: whenever the element's live location is identical on every
re-read and the trespass query keeps succeeding, a `scroll_to_element`
run with a supplied container and an attempt budget larger than 10
returns early after exactly 10 iterations — the 10 consecutive
no-movement detections — regardless of the remaining budget. -/
theorem claim_C3_stuck_after_ten (env : ScrollEnv) (chain : List AncestorNode)
    (scroll_delta : Int) (max_attempts : Nat) (cont : FoundContainer)
    (bounds_offset : BoundsOffset) (r : Option Side)
    (hE : ∀ m, env.elemReads m = env.elemReads 0)
    (hW : ∀ m, env.winReads m = env.winReads 0)
    (hQ : where_is_element_trespassing (env.elemReads 0) (env.winReads 0) bounds_offset =
      Except.ok r)
    (hM : 10 < max_attempts) :
    itersOf (scroll_to_element env chain scroll_delta max_attempts (some cont)
      bounds_offset) = some 10 := by
  obtain ⟨ds, hds⟩ := scrollLoop_stuck_aux env scroll_delta bounds_offset r hE hW hQ
    9 max_attempts 0 0 (by omega) (by omega)
  simp [scroll_to_element, Option.orElse, hds, itersOf]

/-- Claim C3 witness: the theorem applied to the never-moving
fully-inside environment with a 15-attempt budget: the run stops after
exactly 10 iterations. -/
theorem claim_C3_stuck_after_ten_witness :
    itersOf (scroll_to_element insideEnv [] 120 15 (some (FoundContainer.ancestor 0))
      ⟨0, 0, 0, 0⟩) = some 10 :=
  claim_C3_stuck_after_ten insideEnv [] 120 15 (FoundContainer.ancestor 0) ⟨0, 0, 0, 0⟩
    none (fun _ => rfl) (fun _ => rfl) (by decide) (by decide)

end Captvty

